import Mathlib

/-!
# GoDataDiodeRServer: dispatch, log forwarding, rate monitoring and shutdown

A shallow embedding of the four Go source files of the gateway
(`main.go`, `opcua_server.go`, `splunk_logger.go`, `udp_receiver.go`).

Modelling conventions.

* A value of Go type `interface{}` produced by `json.Unmarshal` is a `Json`;
  the nil interface is `Json.null`.  A `float64` decoded from JSON is finite,
  so it is represented by the rational number it denotes.
* A `map[string]interface{}` is an association list `GoMap`; only the first
  binding of a key counts.
* Go `int` is the 64-bit two's complement integer: results are wrapped with
  `wrapInt64`.
* Every method returns its updated receiver together with the list of
  observable events (`Ev`) it performs, in program order: mutex operations,
  log lines, calls into other components, socket operations.
* What the code reads from its environment (the clock, whether a socket
  write succeeds, the platform's result for an out-of-range float conversion)
  is the record `Env`.
* A call of `Stop` is described by what it leaves behind, the events it
  performs and whether it returns (`StopResult`): it blocks in `Lock` when the
  mutex stays held, and in `wg.Wait()` when a registered background goroutine
  cannot reach `wg.Done()`.
* Where two goroutines contend for a mutex (`UDPReceiver.Stop` against
  `UDPReceiver.receiveLoop`), each is a program counter over its statements and
  an execution is a schedule of single statements.

The definitions come first; the theorems follow, grouped by component.
-/

namespace GoDataDiode

/-! ## Dynamic values -/

/-- Values of Go type `interface{}` as produced by `encoding/json`. -/
inductive Json where
  | null
  | bool (b : Bool)
  | number (x : ℚ)
  | string (s : String)
  | array (xs : List Json)
  | object (kvs : List (String × Json))

/-- Go `map[string]interface{}`. -/
abbrev GoMap := List (String × Json)

/-- The two-valued lookup `v, ok := m[k]`: `none` when the key is absent. -/
def GoMap.lookup (m : GoMap) (k : String) : Option Json :=
  List.lookup k m

/-- The one-valued lookup `m[k]`: the nil interface when the key is absent. -/
def GoMap.index (m : GoMap) (k : String) : Json :=
  (m.lookup k).getD Json.null

/-- The assignment `m[k] = v`. -/
def GoMap.set (m : GoMap) (k : String) (v : Json) : GoMap :=
  (k, v) :: m.filter (fun p => p.1 != k)

/-- Assign a default only when the key is absent (the pattern of
splunk_logger.go:108-116). -/
def GoMap.setIfAbsent (m : GoMap) (k : String) (v : Json) : GoMap :=
  if (m.lookup k).isSome then m else m.set k v

/-- The type assertion `x.(string)`: `none` when it fails. -/
def Json.asString : Json → Option String
  | .string s => some s
  | _ => none

/-- The type assertion `x.(float64)`: `none` when it fails. -/
def Json.asFloat64 : Json → Option ℚ
  | .number x => some x
  | _ => none

/-! ## Machine arithmetic -/

/-- Wrap an integer into the range of Go `int` (64 bits, two's complement). -/
def wrapInt64 (x : Int) : Int :=
  (x + 2 ^ 63) % 2 ^ 64 - 2 ^ 63

/-- The largest value of Go `int`. -/
def maxInt64 : Int := 2 ^ 63 - 1

/-- Truncation towards zero of a finite `float64`. -/
def truncFloat64 (x : ℚ) : Int :=
  Int.tdiv x.num x.den

/-- What the code reads from its environment. -/
structure Env where
  /-- The value of `time.Now().Format(time.RFC3339)`. -/
  now : String
  /-- Whether `conn.Write` on an open connection returns an error. -/
  writeFails : Bool
  /-- The platform's result of `uint32(f)` when the truncated `f` is not a `uint32`. -/
  uint32OutOfRange : ℚ → Nat
  /-- The platform's result of `int(f)` when the truncated `f` is not an `int`. -/
  intOutOfRange : ℚ → Int

/-- The conversion `uint32(f)` of a `float64`: the fraction is discarded; when
the result does not fit, the value is the platform's. -/
def float64ToUint32 (env : Env) (f : ℚ) : Nat :=
  let t := truncFloat64 f
  if 0 ≤ t ∧ t < 2 ^ 32 then t.toNat else env.uint32OutOfRange f % 2 ^ 32

/-- The conversion `int(f)` of a `float64`. -/
def float64ToInt (env : Env) (f : ℚ) : Int :=
  let t := truncFloat64 f
  if -(2 ^ 63) ≤ t ∧ t < 2 ^ 63 then t else wrapInt64 (env.intOutOfRange f)

/-! ## Observable events -/

/-- The mutexes of the program. -/
inductive Mutex where
  /-- `Application.configMutex`, the dispatcher lock. -/
  | configMutex
  /-- `OPCUAServer.mu`. -/
  | opcuaMu
  /-- `SplunkLogger.mu`. -/
  | splunkMu
  /-- `UDPReceiver.mu`. -/
  | receiverMu
  deriving DecidableEq, Repr

/-- The six handlers `Application.handleUDPData` chooses from. -/
inductive Handler where
  | handleOPCUAData
  | handleAuthConfig
  | handleUsers
  | handleLog
  | handleLogConfig
  | handleInterfaceConfig
  deriving DecidableEq, Repr

/-- The log statements of the program, one constructor per statement. -/
inductive LogLine where
  /-- `log.Println("Missing or invalid data type")`, main.go:79. -/
  | missingOrInvalidDataType
  /-- `log.Printf("Unknown data type: %s", dataType)`, main.go:97. -/
  | unknownDataType (dataType : String)
  /-- `log.Println("Handling auth config:", data)`. -/
  | handlingAuthConfig (data : GoMap)
  /-- `log.Println("Handling users:", data)`. -/
  | handlingUsers (data : GoMap)
  /-- `log.Println("Handling log config:", data)`. -/
  | handlingLogConfig (data : GoMap)
  /-- `log.Println("Handling interface config:", data)`. -/
  | handlingInterfaceConfig (data : GoMap)
  /-- `log.Printf("Variable update - Tag: ...")`, opcua_server.go:151. -/
  | variableUpdate (tag path : String) (value : Json) (statusCode : Nat) (ns : String)
  /-- `log.Printf("Packet rate: %d packets/second", currentCount)`. -/
  | packetRate (currentCount : Int)
  /-- `log.Printf("Failed to send log to Splunk: %v", err)`. -/
  | failedToSend
  /-- `log.Printf("Updated logger config: %s:%d", ...)`. -/
  | updatedLoggerConfig (host : String) (port : Int)
  /-- `log.Println("UDP receiver stopped")`. -/
  | udpReceiverStopped
  /-- `log.Println("Splunk logger stopped")`. -/
  | splunkLoggerStopped
  /-- `log.Println("OPC UA Server stopped")`. -/
  | opcuaServerStopped

/-- Observable events, in program order. -/
inductive Ev where
  /-- `m.Lock()` returned: the mutex is now held. -/
  | lock (m : Mutex)
  /-- `m.Unlock()`. -/
  | unlock (m : Mutex)
  /-- The dispatcher calls one of its six handlers. -/
  | handler (h : Handler)
  /-- A call of `OPCUAServer.HandleVariableUpdate` with these arguments. -/
  | callHandleVariableUpdate (tag path : String) (value : Json) (statusCode : Nat) (ns : String)
  /-- A call of `SplunkLogger.SendLog` with this record. -/
  | callSendLog (logData : GoMap)
  /-- A line written to the process log. -/
  | log (line : LogLine)
  /-- `conn.Write(jsonData)`, where `jsonData` is `json.Marshal` of this object. -/
  | connWrite (jsonData : GoMap)
  /-- `conn.Close()`. -/
  | connClose
  /-- `s.cancel()`. -/
  | cancel
  /-- `s.server.Close()`. -/
  | serverClose
  /-- `wg.Wait()`. -/
  | wgWait
  /-- A nil pointer dereference: the goroutine panics. -/
  | panic

/-! ## Components -/

/-- A `*net.UDPConn` that is not nil. -/
structure Conn where
  closed : Bool
  deriving DecidableEq, Repr

/-- The fields of `OPCUAServer` (opcua_server.go:15). `server` records whether
the pointer is non-nil, `cancelled` whether `ctx` has been cancelled. The map
`nodes` is never read or written after construction and is left out; `mu` and
`wg` appear as events. -/
structure OPCUAServer where
  port : Int
  packetCount : Int
  running : Bool
  numGroups : Int
  server : Bool
  cancelled : Bool
  deriving DecidableEq, Repr

/-- The fields of `SplunkLogger` (splunk_logger.go:12). -/
structure SplunkLogger where
  splunkHost : String
  splunkPort : Int
  conn : Option Conn
  running : Bool
  deriving DecidableEq, Repr

/-- The fields of `UDPReceiver` (udp_receiver.go:12); `dataCallback` is
`Application.handleUDPData`. -/
structure UDPReceiver where
  host : String
  port : Int
  conn : Option Conn
  running : Bool
  deriving DecidableEq, Repr

/-- The fields of `Application` (main.go:12); a component pointer may be nil. -/
structure Application where
  opcuaServer : Option OPCUAServer
  udpReceiver : Option UDPReceiver
  splunkLogger : Option SplunkLogger
  running : Bool
  deriving DecidableEq, Repr

/-- A component as a caller of `Stop` finds it: its data fields together with
the state of its two synchronisation fields `mu` and `wg`. -/
structure Instance (α : Type) where
  fields : α
  /-- Whether `mu` is held, and stays held, by an earlier `Stop` that is blocked
  in `wg.Wait()`. -/
  muHeld : Bool
  /-- The counter of `wg`: the background goroutines registered by `Start`
  that have not called `wg.Done()`; each of them is inside its loop. -/
  wg : Nat

/-- What one call of `Stop` does. -/
structure StopResult (α : Type) where
  /-- The component the call leaves behind. -/
  after : Instance α
  /-- The events the call performs, in order; when the call blocks, the events
  up to and including the call that blocks in `wg.Wait()`, and none when it
  blocks in `mu.Lock()`. -/
  events : List Ev
  /-- Whether the call returns; `false` when it blocks for ever. -/
  returned : Bool

/-! ## opcua_server.go -/

/-- `NewOPCUAServer` (opcua_server.go:28). -/
def NewOPCUAServer (numGroups : Int) : OPCUAServer :=
  { port := 49320, packetCount := 0, running := false, numGroups := numGroups,
    server := false, cancelled := false }

/-- `OPCUAServer.HandleVariableUpdate` (opcua_server.go:144). -/
def OPCUAServer.HandleVariableUpdate (s : OPCUAServer) (tag path : String) (value : Json)
    (statusCode : Nat) (ns : String) : OPCUAServer × List Ev :=
  ({ s with packetCount := wrapInt64 (s.packetCount + 1) },
   [Ev.lock .opcuaMu,
    Ev.log (.variableUpdate tag path value statusCode ns),
    Ev.unlock .opcuaMu])

/-- One firing of `ticker.C` in `OPCUAServer.monitorRates` (opcua_server.go:129-137). -/
def OPCUAServer.monitorRatesTick (s : OPCUAServer) : OPCUAServer × List Ev :=
  let currentCount := s.packetCount
  ({ s with packetCount := 0 },
   [Ev.lock .opcuaMu, Ev.unlock .opcuaMu] ++
     (if currentCount > 0 then [Ev.log (.packetRate currentCount)] else []))

/-- `OPCUAServer.Stop` (opcua_server.go:102). The call blocks in `s.mu.Lock()`
when the mutex is held for ever. On a running server it clears the flag,
cancels the context, closes the server and calls `s.wg.Wait()` while still
holding `s.mu`. With a `monitorRates` goroutine registered, `Wait` returns only
if that goroutine's `select` (line 128) takes `ctx.Done()` and so exits
(`monitorExits`); if it takes, or has taken, a tick, it blocks in `s.mu.Lock()`
(line 130) and `Stop` never returns. The log line and the deferred `Unlock`
happen only when `Wait` returns. -/
def OPCUAServer.Stop (monitorExits : Bool) (i : Instance OPCUAServer) :
    StopResult OPCUAServer :=
  if i.muHeld then
    { after := i, events := [], returned := false }
  else if !i.fields.running then
    { after := i, events := [Ev.lock .opcuaMu, Ev.unlock .opcuaMu], returned := true }
  else
    let s' : OPCUAServer := { i.fields with running := false, cancelled := true }
    let upToWait :=
      [Ev.lock .opcuaMu, Ev.cancel] ++ (if i.fields.server then [Ev.serverClose] else []) ++
        [Ev.wgWait]
    if i.wg = 0 || monitorExits then
      { after := { fields := s', muHeld := false, wg := 0 },
        events := upToWait ++ [Ev.log .opcuaServerStopped, Ev.unlock .opcuaMu],
        returned := true }
    else
      { after := { fields := s', muHeld := true, wg := i.wg },
        events := upToWait, returned := false }

/-! ## splunk_logger.go -/

/-- `NewSplunkLogger` (splunk_logger.go:21). -/
def NewSplunkLogger (host : String) (port : Int) : SplunkLogger :=
  { splunkHost := host, splunkPort := port, conn := none, running := false }

/-- `Close` on a connection pointer that may be nil-checked by the caller. -/
def Conn.close (_c : Conn) : Conn := { closed := true }

/-- `SplunkLogger.Stop` (splunk_logger.go:56). The call blocks in `l.mu.Lock()`
when the mutex is held for ever. On a running forwarder it clears the flag,
closes the connection and calls `l.wg.Wait()` while still holding `l.mu`. A
registered `heartbeatLoop` goroutine must take `l.mu` (in `SendLog`, line 100,
and at line 90) before it can reach its `break` and `wg.Done()`, so with the
counter above zero `Wait` never returns; the log line and the deferred `Unlock`
happen only when the counter is zero. -/
def SplunkLogger.Stop (i : Instance SplunkLogger) : StopResult SplunkLogger :=
  if i.muHeld then
    { after := i, events := [], returned := false }
  else if !i.fields.running then
    { after := i, events := [Ev.lock .splunkMu, Ev.unlock .splunkMu], returned := true }
  else
    let l' : SplunkLogger :=
      { i.fields with running := false, conn := i.fields.conn.map Conn.close }
    let upToWait :=
      [Ev.lock .splunkMu] ++ (if i.fields.conn.isSome then [Ev.connClose] else []) ++
        [Ev.wgWait]
    if i.wg = 0 then
      { after := { fields := l', muHeld := false, wg := 0 },
        events := upToWait ++ [Ev.log .splunkLoggerStopped, Ev.unlock .splunkMu],
        returned := true }
    else
      { after := { fields := l', muHeld := true, wg := i.wg },
        events := upToWait, returned := false }

/-- The three defaults of `SplunkLogger.SendLog` (splunk_logger.go:107-116),
applied to the caller's map in place. -/
def ensureRequiredFields (env : Env) (logData : GoMap) : GoMap :=
  let d1 := if (logData.lookup "timestamp").isSome then logData
            else logData.set "timestamp" (.string env.now)
  let d2 := if (d1.lookup "level").isSome then d1 else d1.set "level" (.string "INFO")
  if (d2.lookup "message").isSome then d2 else d2.set "message" (.string "No message provided")

/-- `SplunkLogger.SendLog` (splunk_logger.go:99). Returns the receiver, the
caller's map after the call, and the events. `json.Marshal` cannot fail on a
map of `Json` values, so the branch at lines 119-122 is not reachable. -/
def SplunkLogger.SendLog (env : Env) (l : SplunkLogger) (logData : GoMap) :
    SplunkLogger × GoMap × List Ev :=
  if !l.running || l.conn.isNone then
    (l, logData, [Ev.lock .splunkMu, Ev.unlock .splunkMu])
  else
    let logData' := ensureRequiredFields env logData
    let writeErr := (l.conn.any fun c => c.closed) || env.writeFails
    (l, logData',
     [Ev.lock .splunkMu, Ev.connWrite logData'] ++
       (if writeErr then [Ev.log .failedToSend] else []) ++
       [Ev.unlock .splunkMu])

/-- `SplunkLogger.ConfigLog` (splunk_logger.go:129). -/
def SplunkLogger.ConfigLog (env : Env) (l : SplunkLogger) (configData : GoMap) :
    SplunkLogger × List Ev :=
  let l1 :=
    match (configData.index "ip").asString with
    | some newHost => if newHost != l.splunkHost then { l with splunkHost := newHost } else l
    | none => l
  let l2 :=
    match (configData.index "port").asFloat64 with
    | some newPort => { l1 with splunkPort := float64ToInt env newPort }
    | none => l1
  (l2, [Ev.lock .splunkMu, Ev.log (.updatedLoggerConfig l2.splunkHost l2.splunkPort),
        Ev.unlock .splunkMu])

/-! ## udp_receiver.go -/

/-- `NewUDPReceiver` (udp_receiver.go:22). -/
def NewUDPReceiver : UDPReceiver :=
  { host := "0.0.0.0", port := 8000, conn := none, running := false }

/-- `UDPReceiver.Stop` (udp_receiver.go:58). The call blocks in `r.mu.Lock()`
when the mutex is held for ever. On a running receiver it clears the flag,
closes the socket and calls `r.wg.Wait()` while still holding `r.mu`. A
registered `receiveLoop` goroutine must take `r.mu` (line 81) before it can
reach its `break` and `wg.Done()`, so with the counter above zero `Wait` never
returns (the interleaving model further down steps through this); the log line
and the deferred `Unlock` happen only when the counter is zero. -/
def UDPReceiver.Stop (i : Instance UDPReceiver) : StopResult UDPReceiver :=
  if i.muHeld then
    { after := i, events := [], returned := false }
  else if !i.fields.running then
    { after := i, events := [Ev.lock .receiverMu, Ev.unlock .receiverMu], returned := true }
  else
    let r' : UDPReceiver :=
      { i.fields with running := false, conn := i.fields.conn.map Conn.close }
    let upToWait :=
      [Ev.lock .receiverMu] ++ (if i.fields.conn.isSome then [Ev.connClose] else []) ++
        [Ev.wgWait]
    if i.wg = 0 then
      { after := { fields := r', muHeld := false, wg := 0 },
        events := upToWait ++ [Ev.log .udpReceiverStopped, Ev.unlock .receiverMu],
        returned := true }
    else
      { after := { fields := r', muHeld := true, wg := i.wg },
        events := upToWait, returned := false }

/-! ## main.go -/

/-- `Application.handleOPCUAData` (main.go:101). -/
def Application.handleOPCUAData (env : Env) (app : Application) (data : GoMap) :
    Application × List Ev :=
  let tag := ((data.index "tag").asString).getD ""
  let path := ((data.index "path").asString).getD ""
  let value := data.index "value"
  let statusCode := ((data.index "status_code").asFloat64).getD 0
  let ns := ((data.index "namespace").asString).getD ""
  let call := Ev.callHandleVariableUpdate tag path value (float64ToUint32 env statusCode) ns
  match app.opcuaServer with
  | none => (app, [call, Ev.panic])
  | some s =>
    let r := s.HandleVariableUpdate tag path value (float64ToUint32 env statusCode) ns
    ({ app with opcuaServer := some r.1 }, call :: r.2)

/-- `Application.handleAuthConfig` (main.go:111). -/
def Application.handleAuthConfig (app : Application) (data : GoMap) : Application × List Ev :=
  (app, [Ev.log (.handlingAuthConfig data)])

/-- `Application.handleUsers` (main.go:116). -/
def Application.handleUsers (app : Application) (data : GoMap) : Application × List Ev :=
  (app, [Ev.log (.handlingUsers data)])

/-- `Application.handleLog` (main.go:121). Returns also the caller's map, which
`SendLog` may update in place. -/
def Application.handleLog (env : Env) (app : Application) (data : GoMap) :
    Application × GoMap × List Ev :=
  match app.splunkLogger with
  | none => (app, data, [Ev.callSendLog data, Ev.panic])
  | some l =>
    let r := l.SendLog env data
    ({ app with splunkLogger := some r.1 }, r.2.1, Ev.callSendLog data :: r.2.2)

/-- `Application.handleLogConfig` (main.go:125). -/
def Application.handleLogConfig (app : Application) (data : GoMap) : Application × List Ev :=
  (app, [Ev.log (.handlingLogConfig data)])

/-- `Application.handleInterfaceConfig` (main.go:130). -/
def Application.handleInterfaceConfig (app : Application) (data : GoMap) :
    Application × List Ev :=
  (app, [Ev.log (.handlingInterfaceConfig data)])

/-- The `switch dataType` of `Application.handleUDPData` (main.go:83-98). -/
def Application.dispatch (env : Env) (app : Application) (data : GoMap) (dataType : String) :
    Application × GoMap × List Ev :=
  if dataType = "opcua" then
    let r := app.handleOPCUAData env data
    (r.1, data, Ev.handler .handleOPCUAData :: r.2)
  else if dataType = "opcua_auth_config" then
    let r := app.handleAuthConfig data
    (r.1, data, Ev.handler .handleAuthConfig :: r.2)
  else if dataType = "opcua_users" then
    let r := app.handleUsers data
    (r.1, data, Ev.handler .handleUsers :: r.2)
  else if dataType = "log" then
    let r := app.handleLog env data
    (r.1, r.2.1, Ev.handler .handleLog :: r.2.2)
  else if dataType = "secondary_log_config" then
    let r := app.handleLogConfig data
    (r.1, data, Ev.handler .handleLogConfig :: r.2)
  else if dataType = "receive_interface_config" then
    let r := app.handleInterfaceConfig data
    (r.1, data, Ev.handler .handleInterfaceConfig :: r.2)
  else
    (app, data, [Ev.log (.unknownDataType dataType)])

/-- `Application.handleUDPData` (main.go:73): the dispatcher lock is taken
first and released by the deferred `Unlock` when the function returns. -/
def Application.handleUDPData (env : Env) (app : Application) (data : GoMap) :
    Application × GoMap × List Ev :=
  match (data.index "type").asString with
  | none =>
    (app, data,
     [Ev.lock .configMutex, Ev.log .missingOrInvalidDataType, Ev.unlock .configMutex])
  | some dataType =>
    let r := app.dispatch env data dataType
    (r.1, r.2.1, [Ev.lock .configMutex] ++ r.2.2 ++ [Ev.unlock .configMutex])

/-! ## Reading a trace -/

/-- The handlers the dispatcher called, in order. -/
def handlersRun (t : List Ev) : List Handler :=
  t.filterMap fun e => match e with
    | .handler h => some h
    | _ => none

/-- The two drop diagnostics of `Application.handleUDPData` (main.go:79 and main.go:97). -/
def isDropDiagnostic : Ev → Bool
  | .log .missingOrInvalidDataType => true
  | .log (.unknownDataType _) => true
  | _ => false

/-- The drop diagnostics in a trace. -/
def dropDiagnostics (t : List Ev) : List Ev :=
  t.filter isDropDiagnostic

/-- The argument tuples of the calls of `OPCUAServer.HandleVariableUpdate` in a trace. -/
def variableUpdateCalls (t : List Ev) : List (String × String × Json × Nat × String) :=
  t.filterMap fun e => match e with
    | .callHandleVariableUpdate tag path value statusCode ns =>
        some (tag, path, value, statusCode, ns)
    | _ => none

/-- The objects handed to `conn.Write` in a trace. -/
def transmitted (t : List Ev) : List GoMap :=
  t.filterMap fun e => match e with
    | .connWrite d => some d
    | _ => none

/-- The log lines in a trace. -/
def logLines (t : List Ev) : List LogLine :=
  t.filterMap fun e => match e with
    | .log l => some l
    | _ => none

/-- The rate observations (`Packet rate: n packets/second`) in a trace. -/
def rateObservations (t : List Ev) : List Int :=
  t.filterMap fun e => match e with
    | .log (.packetRate n) => some n
    | _ => none

/-! ## The specification's readings -/

/-- The handler the specification assigns to a discriminator value: variable
update, auth config, user management, log forward, log sink config, interface
config; none for any other string. -/
def specHandler (dataType : String) : Option Handler :=
  if dataType = "opcua" then some .handleOPCUAData
  else if dataType = "opcua_auth_config" then some .handleAuthConfig
  else if dataType = "opcua_users" then some .handleUsers
  else if dataType = "log" then some .handleLog
  else if dataType = "secondary_log_config" then some .handleLogConfig
  else if dataType = "receive_interface_config" then some .handleInterfaceConfig
  else none

/-- The specification's string field: the string under the key, the empty
string when the key is absent or holds another type. -/
def specString (data : GoMap) (k : String) : String :=
  match data.lookup k with
  | some (.string s) => s
  | _ => ""

/-- The specification's status code: the number under `status_code` converted
to an unsigned 32-bit integer, 0 when the key is absent or holds another type. -/
def specStatusCode (env : Env) (data : GoMap) : Nat :=
  match data.lookup "status_code" with
  | some (.number x) => float64ToUint32 env x
  | _ => 0

/-- The specification's normalised record, key by key: the caller's value
when the key is present; otherwise the current time for `timestamp`, `"INFO"`
for `level`, `"No message provided"` for `message`, and nothing for any other
key. -/
def specRecord (env : Env) (logData : GoMap) (k : String) : Option Json :=
  match logData.lookup k with
  | some v => some v
  | none =>
    if k = "timestamp" then some (.string env.now)
    else if k = "level" then some (.string "INFO")
    else if k = "message" then some (.string "No message provided")
    else none

/-- The specification's reading of a configuration map: the host is the string
under `"ip"`, else the recorded host. -/
def specHost (l : SplunkLogger) (configData : GoMap) : String :=
  match configData.lookup "ip" with
  | some (.string h) => h
  | _ => l.splunkHost

/-- The specification's reading of a configuration map: the port is the number
under `"port"` converted to an integer, else the recorded port. -/
def specPort (env : Env) (l : SplunkLogger) (configData : GoMap) : Int :=
  match configData.lookup "port" with
  | some (.number p) => float64ToInt env p
  | _ => l.splunkPort

/-- A populated (non-empty) entry: the key is present and its value is neither
the nil interface nor the empty string. -/
def populated : Option Json → Bool
  | some (.string s) => s != ""
  | some .null => false
  | some _ => true
  | none => false

/-! ## Worked examples -/

/-- An environment for the worked examples. -/
def exampleEnv : Env :=
  { now := "2024-01-01T00:00:00Z", writeFails := false,
    uint32OutOfRange := fun _ => 0, intOutOfRange := fun _ => 0 }

/-- A started OPC UA server with the given packet count. -/
def exampleServer (packetCount : Int) : OPCUAServer :=
  { NewOPCUAServer 10 with packetCount := packetCount, running := true, server := true }

/-- A started log forwarder with an open connection. -/
def exampleLogger : SplunkLogger :=
  { NewSplunkLogger "192.168.2.112" 1514 with conn := some { closed := false }, running := true }

/-- A started application whose OPC UA server has the given packet count. -/
def exampleApp (packetCount : Int) : Application :=
  { opcuaServer := some (exampleServer packetCount),
    udpReceiver := some { NewUDPReceiver with conn := some { closed := false }, running := true },
    splunkLogger := some exampleLogger,
    running := true }

/-- A receiver as `Start` leaves it: running, socket open, mutex free, the
`receiveLoop` goroutine registered. -/
def startedReceiver : Instance UDPReceiver :=
  { fields := { NewUDPReceiver with conn := some { closed := false }, running := true },
    muHeld := false, wg := 1 }

/-- A log forwarder as `Start` leaves it: running, connection open, mutex free,
the `heartbeatLoop` goroutine registered. -/
def startedLogger : Instance SplunkLogger :=
  { fields := exampleLogger, muHeld := false, wg := 1 }

/-- A log forwarder that was never started. -/
def newLogger : Instance SplunkLogger :=
  { fields := NewSplunkLogger "192.168.2.112" 1514, muHeld := false, wg := 0 }

/-- An OPC UA server as `Start` leaves it: running, mutex free, the
`monitorRates` goroutine registered. -/
def startedServer : Instance OPCUAServer :=
  { fields := exampleServer 0, muHeld := false, wg := 1 }

/-- Scenario 1 of the specification:
`{"type":"opcua","tag":"T1","path":"/a/b","value":42,"status_code":0,"namespace":"ns=2"}`. -/
def scenario1 : GoMap :=
  [("type", .string "opcua"), ("tag", .string "T1"), ("path", .string "/a/b"),
   ("value", .number 42), ("status_code", .number 0), ("namespace", .string "ns=2")]

/-- Scenario 2 of the specification: `{"type":"unknown_x"}`. -/
def scenario2 : GoMap :=
  [("type", .string "unknown_x")]

/-- Scenario 3 of the specification: `{"type":"log","message":"test"}`. -/
def scenario3 : GoMap :=
  [("type", .string "log"), ("message", .string "test")]

/-- A log record whose message is the empty string: `{"type":"log","message":""}`. -/
def emptyMessageRecord : GoMap :=
  [("type", .string "log"), ("message", .string "")]

/-- Scenario 4 of the specification: `{"ip":"10.0.0.5","port":9000}`. -/
def scenario4 : GoMap :=
  [("ip", .string "10.0.0.5"), ("port", .number 9000)]

/-! ## Runs of the variable store -/

/-- The arguments of one call of `OPCUAServer.HandleVariableUpdate`. -/
abbrev UpdateArgs := String × String × Json × Nat × String

/-- A sequence of calls of `OPCUAServer.HandleVariableUpdate`, one per element. -/
def OPCUAServer.handleAll (s : OPCUAServer) : List UpdateArgs → OPCUAServer × List Ev
  | [] => (s, [])
  | a :: rest =>
    let r := s.HandleVariableUpdate a.1 a.2.1 a.2.2.1 a.2.2.2.1 a.2.2.2.2
    let r2 := OPCUAServer.handleAll r.1 rest
    (r2.1, r.2 ++ r2.2)

/-- One update repeated `2^63` times. -/
def wrappingBurst : List UpdateArgs :=
  List.replicate (2 ^ 63) ("T1", "/a/b", Json.number 42, 0, "ns=2")

/-! ## Effects and held locks of a trace -/

/-- The events of a trace other than taking and releasing a mutex: what a call
closes, cancels, waits for, writes or logs. -/
def effects (t : List Ev) : List Ev :=
  t.filter fun e => match e with
    | .lock _ => false
    | .unlock _ => false
    | _ => true

/-- The set of mutexes a task holds after one event, given the set before it. -/
def heldStep (held : List Mutex) : Ev → List Mutex
  | .lock m => m :: held
  | .unlock m => held.erase m
  | _ => held

/-- The set of mutexes held after each event of a trace, in order. -/
def heldAfter (held : List Mutex) : List Ev → List (List Mutex)
  | [] => []
  | e :: t => heldStep held e :: heldAfter (heldStep held e) t

/-- The set of mutexes held when a trace ends. -/
def heldFinal (held : List Mutex) : List Ev → List Mutex
  | [] => held
  | e :: t => heldFinal (heldStep held e) t

/-- The four sets of mutexes a task handling an event is ever seen to hold. -/
def dispatchHeldSets : List (List Mutex) :=
  [[], [.configMutex], [.opcuaMu, .configMutex], [.splunkMu, .configMutex]]

/-! ## The interleaving of `UDPReceiver.Stop` and `UDPReceiver.receiveLoop` -/

/-- The two goroutines involved in stopping the receiver. -/
inductive Thread where
  /-- The goroutine that called `UDPReceiver.Stop`. -/
  | stop
  /-- The goroutine running `UDPReceiver.receiveLoop`. -/
  | loop
  deriving DecidableEq, Repr

/-- Program points of `UDPReceiver.Stop` (udp_receiver.go:58-73): the next
statement to execute. -/
inductive StopPc where
  /-- Line 59, `r.mu.Lock()`. -/
  | lock
  /-- Line 62, `if !r.running`. -/
  | check
  /-- Line 66, `r.running = false`. -/
  | clearRunning
  /-- Lines 67-69, `r.conn.Close()`. -/
  | closeConn
  /-- Line 70, `r.wg.Wait()`. -/
  | wait
  /-- Line 72, `log.Println("UDP receiver stopped")`. -/
  | logStopped
  /-- The deferred `r.mu.Unlock()` of line 60. -/
  | unlock
  /-- `Stop` has returned. -/
  | returned
  deriving DecidableEq, Repr

/-- Program points of `UDPReceiver.receiveLoop` (udp_receiver.go:75-102). -/
inductive LoopPc where
  /-- Line 81, `r.mu.Lock()`. -/
  | lock
  /-- Line 82, `if !r.running`. -/
  | check
  /-- Lines 83-84, `r.mu.Unlock(); break`. -/
  | unlockBreak
  /-- Line 86, `r.mu.Unlock()`. -/
  | unlock
  /-- Lines 89-100: `SetReadDeadline`, `ReadFromUDP`, then `continue` or
  `go r.processData(...)`; in every case control returns to line 81. -/
  | read
  /-- The deferred `r.wg.Done()` of line 76. -/
  | wgDone
  /-- The loop goroutine has exited. -/
  | exited
  deriving DecidableEq, Repr

/-- The shared state of the receiver and the program points of both goroutines. -/
structure Sys where
  running : Bool
  connClosed : Bool
  /-- The goroutine holding `r.mu`, if any. -/
  mu : Option Thread
  /-- The counter of `r.wg`. -/
  wg : Nat
  stop : StopPc
  loop : LoopPc
  deriving DecidableEq, Repr

/-- One statement of `UDPReceiver.Stop`; `none` when the goroutine is blocked
(on `Lock` while the mutex is held, on `Wait` while the counter is not zero) or
has returned. -/
def stepStop (σ : Sys) : Option Sys :=
  match σ.stop with
  | .lock => if σ.mu = none then some { σ with mu := some .stop, stop := .check } else none
  | .check =>
    if !σ.running then some { σ with stop := .unlock } else some { σ with stop := .clearRunning }
  | .clearRunning => some { σ with running := false, stop := .closeConn }
  | .closeConn => some { σ with connClosed := true, stop := .wait }
  | .wait => if σ.wg = 0 then some { σ with stop := .logStopped } else none
  | .logStopped => some { σ with stop := .unlock }
  | .unlock => some { σ with mu := none, stop := .returned }
  | .returned => none

/-- One statement of `UDPReceiver.receiveLoop`; `none` when the goroutine is
blocked on `Lock` or has exited. -/
def stepLoop (σ : Sys) : Option Sys :=
  match σ.loop with
  | .lock => if σ.mu = none then some { σ with mu := some .loop, loop := .check } else none
  | .check =>
    if !σ.running then some { σ with loop := .unlockBreak } else some { σ with loop := .unlock }
  | .unlockBreak => some { σ with mu := none, loop := .wgDone }
  | .unlock => some { σ with mu := none, loop := .read }
  | .read => some { σ with loop := .lock }
  | .wgDone => some { σ with wg := σ.wg - 1, loop := .exited }
  | .exited => none

/-- One statement of the chosen goroutine. -/
def step (t : Thread) (σ : Sys) : Option Sys :=
  match t with
  | .stop => stepStop σ
  | .loop => stepLoop σ

/-- Run a schedule: at each turn the chosen goroutine executes one statement,
or stays where it is when it is blocked. -/
def run (σ : Sys) : List Thread → Sys
  | [] => σ
  | t :: ts => run ((step t σ).getD σ) ts

/-- A receiver after a successful `Start` (running, socket open, one loop
goroutine registered in the wait group and about to enter the loop) on which
`Stop` has just been called. -/
def stopCalled : Sys :=
  { running := true, connClosed := false, mu := none, wg := 1, stop := .lock, loop := .lock }

/-- The invariant of every interleaving from `stopCalled`: the loop goroutine
is registered and inside its loop; either `Stop` has not yet taken the mutex and
the flag is still set, or `Stop` holds the mutex, is at or before `Wait`, and
the loop goroutine is outside its critical section. -/
def stopInv (σ : Sys) : Bool :=
  σ.wg == 1 &&
  ((σ.stop == .lock && σ.running &&
      ((σ.mu == none && (σ.loop == .lock || σ.loop == .read)) ||
       (σ.mu == some .loop && (σ.loop == .check || σ.loop == .unlock)))) ||
   ((σ.stop == .check || σ.stop == .clearRunning || σ.stop == .closeConn || σ.stop == .wait) &&
      σ.mu == some .stop && (σ.loop == .lock || σ.loop == .read) &&
      (σ.stop != .check || σ.running)))

/-! ## Dispatch -/

theorem handlersRun_handleOPCUAData (env : Env) (app : Application) (data : GoMap) :
    handlersRun (app.handleOPCUAData env data).2 = [] ∧
    dropDiagnostics (app.handleOPCUAData env data).2 = [] := by
  unfold Application.handleOPCUAData
  cases app.opcuaServer <;>
    simp [handlersRun, dropDiagnostics, isDropDiagnostic, OPCUAServer.HandleVariableUpdate]

theorem handlersRun_handleLog (env : Env) (app : Application) (data : GoMap) :
    handlersRun (app.handleLog env data).2.2 = [] ∧
    dropDiagnostics (app.handleLog env data).2.2 = [] := by
  unfold Application.handleLog
  cases app.splunkLogger with
  | none => simp [handlersRun, dropDiagnostics, isDropDiagnostic]
  | some l =>
    simp only [SplunkLogger.SendLog]
    split_ifs <;> simp [handlersRun, dropDiagnostics, isDropDiagnostic]

theorem dispatch_trace (env : Env) (app : Application) (data : GoMap) (dataType : String) :
    handlersRun (app.dispatch env data dataType).2.2 = (specHandler dataType).toList ∧
    dropDiagnostics (app.dispatch env data dataType).2.2
      = (if (specHandler dataType).isSome then [] else [Ev.log (.unknownDataType dataType)]) := by
  obtain ⟨hO1, hO2⟩ := handlersRun_handleOPCUAData env app data
  obtain ⟨hL1, hL2⟩ := handlersRun_handleLog env app data
  have hcons : ∀ (h : Handler) (t : List Ev),
      handlersRun (Ev.handler h :: t) = h :: handlersRun t ∧
      dropDiagnostics (Ev.handler h :: t) = dropDiagnostics t := by
    intro h t
    simp [handlersRun, dropDiagnostics, isDropDiagnostic]
  unfold Application.dispatch specHandler
  by_cases h1 : dataType = "opcua"
  · simp only [if_pos h1, hcons, hO1, hO2]; simp
  simp only [if_neg h1]
  by_cases h2 : dataType = "opcua_auth_config"
  · simp only [if_pos h2, hcons, Application.handleAuthConfig]
    simp [handlersRun, dropDiagnostics, isDropDiagnostic]
  simp only [if_neg h2]
  by_cases h3 : dataType = "opcua_users"
  · simp only [if_pos h3, hcons, Application.handleUsers]
    simp [handlersRun, dropDiagnostics, isDropDiagnostic]
  simp only [if_neg h3]
  by_cases h4 : dataType = "log"
  · simp only [if_pos h4, hcons, hL1, hL2]; simp
  simp only [if_neg h4]
  by_cases h5 : dataType = "secondary_log_config"
  · simp only [if_pos h5, hcons, Application.handleLogConfig]
    simp [handlersRun, dropDiagnostics, isDropDiagnostic]
  simp only [if_neg h5]
  by_cases h6 : dataType = "receive_interface_config"
  · simp only [if_pos h6, hcons, Application.handleInterfaceConfig]
    simp [handlersRun, dropDiagnostics, isDropDiagnostic]
  simp only [if_neg h6]
  simp [handlersRun, dropDiagnostics, isDropDiagnostic]

/-- C1. `Application.handleUDPData` calls exactly the handler the routing table
gives for the string under `"type"` and emits no drop diagnostic; when the key
is missing, not a string, or a string outside the table, it calls no handler
and emits exactly one drop diagnostic. -/
theorem handleUDPData_routes (env : Env) (app : Application) (data : GoMap) :
    handlersRun (app.handleUDPData env data).2.2
      = (((data.index "type").asString).bind specHandler).toList ∧
    dropDiagnostics (app.handleUDPData env data).2.2
      = (match (data.index "type").asString with
         | none => [Ev.log .missingOrInvalidDataType]
         | some dataType =>
           if (specHandler dataType).isSome then [] else [Ev.log (.unknownDataType dataType)]) ∧
    (handlersRun (app.handleUDPData env data).2.2).length
      + (dropDiagnostics (app.handleUDPData env data).2.2).length = 1 := by
  unfold Application.handleUDPData
  cases hty : (data.index "type").asString with
  | none => simp [handlersRun, dropDiagnostics, isDropDiagnostic]
  | some dataType =>
    obtain ⟨hd1, hd2⟩ := dispatch_trace env app data dataType
    have e1 : handlersRun ([Ev.lock .configMutex] ++ (app.dispatch env data dataType).2.2
        ++ [Ev.unlock .configMutex]) = (specHandler dataType).toList := by
      rw [← hd1]; simp [handlersRun, List.filterMap_append]
    have e2 : dropDiagnostics ([Ev.lock .configMutex] ++ (app.dispatch env data dataType).2.2
        ++ [Ev.unlock .configMutex])
        = (if (specHandler dataType).isSome then [] else [Ev.log (.unknownDataType dataType)]) := by
      rw [← hd2]; simp [dropDiagnostics, isDropDiagnostic, List.filter_append]
    rw [e1, e2]
    refine ⟨rfl, rfl, ?_⟩
    cases specHandler dataType <;> simp

/-- Scenario 2: `{"type":"unknown_x"}` runs no handler and emits exactly one
diagnostic, the one for an unknown type. -/
theorem handleUDPData_routes_witness :
    handlersRun ((exampleApp 0).handleUDPData exampleEnv scenario2).2.2 = [] ∧
    dropDiagnostics ((exampleApp 0).handleUDPData exampleEnv scenario2).2.2
      = [Ev.log (.unknownDataType "unknown_x")] := by
  have h := handleUDPData_routes exampleEnv (exampleApp 0) scenario2
  exact ⟨by rw [h.1]; rfl, by rw [h.2.1]; rfl⟩

/-! ## Variable updates -/

theorem wrapInt64_of_range (x : Int) (h1 : -(2 ^ 63) ≤ x) (h2 : x < 2 ^ 63) :
    wrapInt64 x = x := by
  unfold wrapInt64
  rw [Int.emod_eq_of_lt (by omega) (by omega)]
  omega

theorem float64ToUint32_zero (env : Env) : float64ToUint32 env 0 = 0 := by
  simp [float64ToUint32, truncFloat64]

theorem index_asString_getD (data : GoMap) (k : String) :
    ((data.index k).asString).getD "" = specString data k := by
  unfold GoMap.index specString
  cases h : data.lookup k with
  | none => simp [Json.asString]
  | some v => cases v <;> simp [Json.asString]

theorem index_statusCode (env : Env) (data : GoMap) :
    float64ToUint32 env (((data.index "status_code").asFloat64).getD 0)
      = specStatusCode env data := by
  unfold GoMap.index specStatusCode
  cases h : data.lookup "status_code" with
  | none => simp [Json.asFloat64, float64ToUint32_zero]
  | some v => cases v <;> simp [Json.asFloat64, float64ToUint32_zero]

/-- C2 as stated fails when the counter holds the largest `int`: the event
`{"type":"opcua"}` takes the counter from `2^63 - 1` to `-2^63`, not to `2^63`. -/
theorem handleUDPData_opcua_counter_wraps :
    ((exampleApp maxInt64).handleUDPData exampleEnv [("type", .string "opcua")]).1.opcuaServer
      = some (exampleServer (-(2 ^ 63))) ∧
    (exampleServer (-(2 ^ 63))).packetCount ≠ (exampleServer maxInt64).packetCount + 1 := by
  constructor
  · rfl
  · decide

/-- C2 (amended). For an event whose discriminator is `"opcua"`, handled by an
application whose OPC UA server exists and whose packet counter is an `int`
below the largest one, `OPCUAServer.HandleVariableUpdate` is called exactly
once, with tag, path and namespace the event's strings (empty when absent or
not a string), value the event's `"value"` entry, and status code the event's
number converted to `uint32` (0 when absent or not a number); the server's
packet counter increases by exactly 1 and nothing else of the server changes. -/
theorem handleUDPData_opcua (env : Env) (app : Application) (s : OPCUAServer) (data : GoMap)
    (hty : (data.index "type").asString = some "opcua")
    (hs : app.opcuaServer = some s)
    (hlo : -(2 ^ 63) ≤ s.packetCount) (hhi : s.packetCount < maxInt64) :
    variableUpdateCalls (app.handleUDPData env data).2.2
      = [(specString data "tag", specString data "path", data.index "value",
          specStatusCode env data, specString data "namespace")] ∧
    (app.handleUDPData env data).1.opcuaServer
      = some { s with packetCount := s.packetCount + 1 } := by
  have hw : wrapInt64 (s.packetCount + 1) = s.packetCount + 1 :=
    wrapInt64_of_range _ (by omega) (by unfold maxInt64 at hhi; omega)
  unfold Application.handleUDPData
  rw [hty]
  simp only [Application.dispatch, if_pos, Application.handleOPCUAData, hs,
    OPCUAServer.HandleVariableUpdate, hw, index_asString_getD, index_statusCode]
  simp [variableUpdateCalls]

/-- Scenario 1: the handler is invoked with Tag=T1, Path=/a/b, Value=42,
Status=0, Namespace=ns=2 and the counter goes from 0 to 1. -/
theorem handleUDPData_opcua_witness :
    variableUpdateCalls ((exampleApp 0).handleUDPData exampleEnv scenario1).2.2
      = [("T1", "/a/b", .number 42, 0, "ns=2")] ∧
    ((exampleApp 0).handleUDPData exampleEnv scenario1).1.opcuaServer
      = some (exampleServer 1) := by
  have h := handleUDPData_opcua exampleEnv (exampleApp 0) (exampleServer 0) scenario1
    (by rfl) (by rfl) (by decide) (by decide)
  constructor
  · rw [h.1]; rfl
  · rw [h.2]; rfl

/-! ## Log forwarding -/

theorem lookup_filter_ne (m : GoMap) (k k' : String) (h : k' ≠ k) :
    List.lookup k' (m.filter (fun p => p.1 != k)) = List.lookup k' m := by
  induction m with
  | nil => simp
  | cons p m ih =>
    obtain ⟨a, b⟩ := p
    by_cases ha : a = k
    · subst ha
      have hb2 : (k' == a) = false := by simpa using h
      simp [List.lookup, hb2, ih]
    · by_cases hk : k' = a
      · subst hk; simp [List.lookup, List.filter_cons, ha]
      · have hb3 : (k' == a) = false := by simpa using hk
        simp [List.lookup, List.filter_cons, ha, hb3, ih]

theorem lookup_set (m : GoMap) (k k' : String) (v : Json) :
    (m.set k v).lookup k' = if k' = k then some v else m.lookup k' := by
  unfold GoMap.set GoMap.lookup
  by_cases h : k' = k
  · subst h; simp [List.lookup]
  · have hb : (k' == k) = false := by simpa using h
    rw [if_neg h, List.lookup, hb]
    exact lookup_filter_ne m k k' h

theorem lookup_setIfAbsent (m : GoMap) (k k' : String) (v : Json) :
    (m.setIfAbsent k v).lookup k'
      = if k' = k then some ((m.lookup k).getD v) else m.lookup k' := by
  unfold GoMap.setIfAbsent
  cases h : m.lookup k with
  | none =>
    by_cases hk : k' = k
    · subst hk; simp [lookup_set]
    · simp [lookup_set, hk]
  | some x =>
    by_cases hk : k' = k
    · subst hk; simp [h]
    · simp [hk]

theorem ensureRequiredFields_eq (env : Env) (logData : GoMap) :
    ensureRequiredFields env logData
      = ((logData.setIfAbsent "timestamp" (.string env.now)).setIfAbsent "level"
          (.string "INFO")).setIfAbsent "message" (.string "No message provided") := rfl

theorem lookup_ensureRequiredFields (env : Env) (logData : GoMap) (k : String) :
    (ensureRequiredFields env logData).lookup k = specRecord env logData k := by
  rw [ensureRequiredFields_eq]
  simp only [lookup_setIfAbsent]
  unfold specRecord
  have e1 : ("message" : String) ≠ "level" := by decide
  have e2 : ("message" : String) ≠ "timestamp" := by decide
  have e3 : ("level" : String) ≠ "timestamp" := by decide
  by_cases hm : k = "message"
  · subst hm
    simp only [if_neg e1, if_neg e2, if_true]
    cases logData.lookup "message" <;> simp
  · by_cases hl : k = "level"
    · subst hl
      simp only [if_neg hm, if_neg e3, if_true]
      cases logData.lookup "level" <;> simp
    · by_cases ht : k = "timestamp"
      · subst ht
        simp only [if_neg hm, if_neg hl, if_true]
        cases logData.lookup "timestamp" <;> simp
      · simp only [if_neg hm, if_neg hl, if_neg ht]
        cases logData.lookup k <;> rfl

theorem SendLog_running (env : Env) (l : SplunkLogger) (logData : GoMap) (c : Conn)
    (hr : l.running = true) (hc : l.conn = some c) :
    l.SendLog env logData
      = (l, ensureRequiredFields env logData,
         [Ev.lock .splunkMu, Ev.connWrite (ensureRequiredFields env logData)] ++
           (if c.closed || env.writeFails then [Ev.log .failedToSend] else []) ++
           [Ev.unlock .splunkMu]) := by
  simp [SplunkLogger.SendLog, hr, hc]

/-- C3. On a running forwarder whose connection is not nil, `SendLog` hands
exactly one object to `conn.Write`; that object holds every key/value pair of
the input unchanged and, key by key, is the input completed with the current
time under `timestamp`, `"INFO"` under `level` and `"No message provided"`
under `message` for exactly those of the three keys the input lacks; the only
log line is the send error, emitted exactly when the write fails. -/
theorem SendLog_transmits (env : Env) (l : SplunkLogger) (logData : GoMap) (c : Conn)
    (hr : l.running = true) (hc : l.conn = some c) :
    ∃ sent : GoMap,
      transmitted (l.SendLog env logData).2.2 = [sent] ∧
      (∀ k v, logData.lookup k = some v → sent.lookup k = some v) ∧
      (∀ k, sent.lookup k = specRecord env logData k) ∧
      logLines (l.SendLog env logData).2.2
        = (if c.closed || env.writeFails then [LogLine.failedToSend] else []) := by
  refine ⟨ensureRequiredFields env logData, ?_, ?_, ?_, ?_⟩
  · rw [SendLog_running env l logData c hr hc]
    cases c.closed || env.writeFails <;> simp [transmitted]
  · intro k v hkv
    rw [lookup_ensureRequiredFields, specRecord, hkv]
  · exact lookup_ensureRequiredFields env logData
  · rw [SendLog_running env l logData c hr hc]
    cases c.closed || env.writeFails <;> simp [logLines]

/-- Scenario 3: `{"type":"log","message":"test"}` is transmitted with
message `"test"`, level `"INFO"` and the generated timestamp. -/
theorem SendLog_transmits_witness :
    ∃ sent : GoMap,
      transmitted (exampleLogger.SendLog exampleEnv scenario3).2.2 = [sent] ∧
      sent.lookup "message" = some (.string "test") ∧
      sent.lookup "level" = some (.string "INFO") ∧
      sent.lookup "timestamp" = some (.string exampleEnv.now) ∧
      sent.lookup "type" = some (.string "log") := by
  obtain ⟨sent, h1, _, h3, _⟩ :=
    SendLog_transmits exampleEnv exampleLogger scenario3 { closed := false } rfl rfl
  exact ⟨sent, h1, by rw [h3]; rfl, by rw [h3]; rfl, by rw [h3]; rfl, by rw [h3]; rfl⟩

/-- C4 as stated fails: the record `{"type":"log","message":""}` is
transmitted with the empty message the caller supplied. -/
theorem SendLog_empty_message_transmitted :
    (transmitted (exampleLogger.SendLog exampleEnv emptyMessageRecord).2.2).map
        (fun sent => (sent.lookup "message", populated (sent.lookup "message")))
      = [(some (.string ""), false)] := by
  rfl

/-- C4 (amended). On a running forwarder whose connection is not nil, the one
object `SendLog` transmits contains the keys `timestamp`, `level` and
`message`; each of the three values is populated when the input lacks the key
or holds a populated value under it, and is the caller's value, empty or not,
when the input holds the key. -/
theorem SendLog_required_fields (env : Env) (l : SplunkLogger) (logData : GoMap) (c : Conn)
    (hr : l.running = true) (hc : l.conn = some c) (hnow : env.now ≠ "") :
    ∃ sent : GoMap,
      transmitted (l.SendLog env logData).2.2 = [sent] ∧
      ∀ k, k = "timestamp" ∨ k = "level" ∨ k = "message" →
        (sent.lookup k).isSome = true ∧
        (logData.lookup k = none ∨ populated (logData.lookup k) = true →
          populated (sent.lookup k) = true) ∧
        (∀ v, logData.lookup k = some v → sent.lookup k = some v) := by
  refine ⟨ensureRequiredFields env logData, ?_, ?_⟩
  · rw [SendLog_running env l logData c hr hc]
    cases c.closed || env.writeFails <;> simp [transmitted]
  · intro k hk
    rw [lookup_ensureRequiredFields]
    unfold specRecord
    cases hl : logData.lookup k with
    | some v => simp
    | none =>
      rcases hk with hk | hk | hk <;> subst hk <;> simp [populated, hnow]

/-- The heartbeat-free record `{}` is transmitted with all three keys
populated by their defaults. -/
theorem SendLog_required_fields_witness :
    ∃ sent : GoMap,
      transmitted (exampleLogger.SendLog exampleEnv []).2.2 = [sent] ∧
      populated (sent.lookup "timestamp") = true ∧
      populated (sent.lookup "level") = true ∧
      populated (sent.lookup "message") = true := by
  obtain ⟨sent, h1, h2⟩ :=
    SendLog_required_fields exampleEnv exampleLogger [] { closed := false } rfl rfl (by decide)
  exact ⟨sent, h1, (h2 "timestamp" (Or.inl rfl)).2.1 (Or.inl rfl),
    (h2 "level" (Or.inr (Or.inl rfl))).2.1 (Or.inl rfl),
    (h2 "message" (Or.inr (Or.inr rfl))).2.1 (Or.inl rfl)⟩

/-- C5. When the forwarder is not running or its connection is nil, `SendLog`
only takes and releases its own mutex: nothing is transmitted, nothing is
logged, and the forwarder and the record are returned unchanged. -/
theorem SendLog_not_running (env : Env) (l : SplunkLogger) (logData : GoMap)
    (h : l.running = false ∨ l.conn = none) :
    l.SendLog env logData = (l, logData, [Ev.lock .splunkMu, Ev.unlock .splunkMu]) ∧
    transmitted (l.SendLog env logData).2.2 = [] ∧
    logLines (l.SendLog env logData).2.2 = [] := by
  have e : l.SendLog env logData = (l, logData, [Ev.lock .splunkMu, Ev.unlock .splunkMu]) := by
    unfold SplunkLogger.SendLog
    rcases h with h | h <;> simp [h]
  rw [e]
  exact ⟨rfl, rfl, rfl⟩

/-- A forwarder that was never started drops scenario 3 silently. -/
theorem SendLog_not_running_witness :
    (NewSplunkLogger "192.168.2.112" 1514).SendLog exampleEnv scenario3
      = (NewSplunkLogger "192.168.2.112" 1514, scenario3,
         [Ev.lock .splunkMu, Ev.unlock .splunkMu]) :=
  (SendLog_not_running exampleEnv (NewSplunkLogger "192.168.2.112" 1514) scenario3
    (Or.inl rfl)).1

/-- C6. `ConfigLog` records the string under `"ip"` as host and the number
under `"port"`, converted to an integer, as port; a key that is absent or of
another type leaves its field as it was; the connection and the running flag
are never changed. -/
theorem ConfigLog_updates_endpoint (env : Env) (l : SplunkLogger) (configData : GoMap) :
    (l.ConfigLog env configData).1
      = { l with splunkHost := specHost l configData, splunkPort := specPort env l configData } ∧
    (l.ConfigLog env configData).1.conn = l.conn ∧
    (l.ConfigLog env configData).1.running = l.running := by
  obtain ⟨host, port, conn, running⟩ := l
  unfold SplunkLogger.ConfigLog specHost specPort GoMap.index
  cases h1 : configData.lookup "ip" with
  | none =>
    cases h2 : configData.lookup "port" with
    | none => simp [Json.asString, Json.asFloat64]
    | some p => cases p <;> simp [Json.asString, Json.asFloat64]
  | some v =>
    cases h2 : configData.lookup "port" with
    | none =>
      cases v <;> simp [Json.asString, Json.asFloat64]
      split_ifs with e
      · subst e; simp
      · exact ⟨fun h => absurd h e, rfl, rfl⟩
    | some p =>
      cases v <;> cases p <;> simp [Json.asString, Json.asFloat64] <;>
        (split_ifs with e <;>
          first
          | (subst e; simp)
          | exact ⟨fun h => absurd h e, rfl, rfl⟩
          | simp_all)

/-- Scenario 4: `{"ip":"10.0.0.5","port":9000}` leaves the recorded endpoint at
`10.0.0.5:9000`, the connection and the running flag untouched. -/
theorem ConfigLog_updates_endpoint_witness :
    (exampleLogger.ConfigLog exampleEnv scenario4).1
      = { exampleLogger with splunkHost := "10.0.0.5", splunkPort := 9000 } ∧
    (exampleLogger.ConfigLog exampleEnv scenario4).1.conn = exampleLogger.conn ∧
    (exampleLogger.ConfigLog exampleEnv scenario4).1.running = exampleLogger.running := by
  have h := ConfigLog_updates_endpoint exampleEnv exampleLogger scenario4
  refine ⟨?_, h.2.1, h.2.2⟩
  rw [h.1]
  rfl

/-! ## Rate monitor -/

theorem wrapInt64_succ (x : Int) : wrapInt64 (wrapInt64 x + 1) = wrapInt64 (x + 1) := by
  unfold wrapInt64
  omega

theorem handleAll_packetCount (us : List UpdateArgs) (s : OPCUAServer)
    (hs : wrapInt64 s.packetCount = s.packetCount) :
    (s.handleAll us).1.packetCount = wrapInt64 (s.packetCount + us.length) := by
  induction us generalizing s with
  | nil => simp [OPCUAServer.handleAll, hs]
  | cons a rest ih =>
    simp only [OPCUAServer.handleAll, List.length_cons]
    rw [ih]
    · simp only [OPCUAServer.HandleVariableUpdate]
      rw [← hs, wrapInt64_succ]
      unfold wrapInt64
      push_cast
      omega
    · simp only [OPCUAServer.HandleVariableUpdate]
      unfold wrapInt64
      omega

theorem handleAll_rateObservations (us : List UpdateArgs) (s : OPCUAServer) :
    rateObservations (s.handleAll us).2 = [] := by
  induction us generalizing s with
  | nil => rfl
  | cons a rest ih =>
    simp only [OPCUAServer.handleAll, rateObservations, List.filterMap_append]
    have := ih (s.HandleVariableUpdate a.1 a.2.1 a.2.2.1 a.2.2.2.1 a.2.2.2.2).1
    simp only [rateObservations] at this
    rw [this]
    simp [OPCUAServer.HandleVariableUpdate]

theorem monitorRatesTick_nonpositive (s : OPCUAServer) (h : s.packetCount ≤ 0) :
    rateObservations (s.monitorRatesTick).2 = [] := by
  have hn : ¬ (s.packetCount > 0) := by omega
  simp [OPCUAServer.monitorRatesTick, rateObservations, hn]

/-- C7 as stated fails at `N = 2^63`: after that many calls the counter has
wrapped to `-2^63`, and the tick emits no observation. -/
theorem monitorRates_misses_wrapped_count :
    wrappingBurst.length = 2 ^ 63 ∧
    ((exampleServer 0).handleAll wrappingBurst).1.packetCount = -(2 ^ 63) ∧
    rateObservations (((exampleServer 0).handleAll wrappingBurst).1.monitorRatesTick).2 = [] := by
  have hlen : wrappingBurst.length = 2 ^ 63 := List.length_replicate _ _
  have h := handleAll_packetCount wrappingBurst (exampleServer 0) (by decide)
  have hc : (exampleServer 0).packetCount = 0 := rfl
  rw [hlen, hc] at h
  have hw : wrapInt64 (0 + ((2 ^ 63 : Nat) : Int)) = -(2 ^ 63) := by
    unfold wrapInt64; norm_num
  rw [hw] at h
  exact ⟨hlen, h, monitorRatesTick_nonpositive _ (by rw [h]; norm_num)⟩

/-- C7 (amended). Starting from a packet counter of 0, `N < 2^63` calls of
`HandleVariableUpdate` followed by one tick of the rate monitor leave the
counter at 0 and emit, over the whole run, exactly one rate observation, of
value `N`, when `N > 0`, and none when `N = 0`. -/
theorem monitorRates_reports_count (s : OPCUAServer) (us : List UpdateArgs)
    (h0 : s.packetCount = 0) (hN : (us.length : Int) < 2 ^ 63) :
    ((s.handleAll us).1.monitorRatesTick).1.packetCount = 0 ∧
    rateObservations ((s.handleAll us).2 ++ ((s.handleAll us).1.monitorRatesTick).2)
      = (if 0 < us.length then [(us.length : Int)] else []) := by
  have hc : (s.handleAll us).1.packetCount = (us.length : Int) := by
    rw [handleAll_packetCount us s (by rw [h0]; decide), h0, zero_add]
    exact wrapInt64_of_range _ (by omega) hN
  refine ⟨rfl, ?_⟩
  have hobs := handleAll_rateObservations us s
  simp only [rateObservations] at hobs
  simp only [rateObservations, List.filterMap_append, hobs, List.nil_append,
    OPCUAServer.monitorRatesTick, hc]
  by_cases hpos : 0 < us.length
  · have : (0 : Int) < (us.length : Int) := by exact_mod_cast hpos
    simp [hpos, this]
  · have : us.length = 0 := by omega
    simp [this]

/-- Three updates followed by a tick: one observation of value 3, counter 0. -/
theorem monitorRates_reports_count_witness :
    (((exampleServer 0).handleAll
        [("T1", "/a/b", .number 42, 0, "ns=2"), ("T2", "/a/c", .null, 0, ""),
         ("T3", "", .bool true, 7, "ns=2")]).1.monitorRatesTick).1.packetCount = 0 ∧
    rateObservations
      (((exampleServer 0).handleAll
          [("T1", "/a/b", .number 42, 0, "ns=2"), ("T2", "/a/c", .null, 0, ""),
           ("T3", "", .bool true, 7, "ns=2")]).2 ++
        (((exampleServer 0).handleAll
          [("T1", "/a/b", .number 42, 0, "ns=2"), ("T2", "/a/c", .null, 0, ""),
           ("T3", "", .bool true, 7, "ns=2")]).1.monitorRatesTick).2)
      = [3] := by
  have h := monitorRates_reports_count (exampleServer 0)
    [("T1", "/a/b", .number 42, 0, "ns=2"), ("T2", "/a/c", .null, 0, ""),
     ("T3", "", .bool true, 7, "ns=2")] rfl (by decide)
  exact ⟨h.1, by rw [h.2]; rfl⟩

/-! ## Stop -/

theorem UDPReceiver_Stop_twice (i : Instance UDPReceiver) :
    (i.fields.running = false →
      (UDPReceiver.Stop i).after = i ∧ effects (UDPReceiver.Stop i).events = [] ∧
      (UDPReceiver.Stop i).returned = !i.muHeld) ∧
    (UDPReceiver.Stop (UDPReceiver.Stop i).after).after = (UDPReceiver.Stop i).after ∧
    effects (UDPReceiver.Stop (UDPReceiver.Stop i).after).events = [] ∧
    (UDPReceiver.Stop (UDPReceiver.Stop i).after).returned = (UDPReceiver.Stop i).returned := by
  obtain ⟨r, muHeld, wg⟩ := i
  cases muHeld <;> cases hr : r.running <;> by_cases hw : wg = 0 <;>
    simp [UDPReceiver.Stop, effects, hr, hw]

theorem SplunkLogger_Stop_twice (i : Instance SplunkLogger) :
    (i.fields.running = false →
      (SplunkLogger.Stop i).after = i ∧ effects (SplunkLogger.Stop i).events = [] ∧
      (SplunkLogger.Stop i).returned = !i.muHeld) ∧
    (SplunkLogger.Stop (SplunkLogger.Stop i).after).after = (SplunkLogger.Stop i).after ∧
    effects (SplunkLogger.Stop (SplunkLogger.Stop i).after).events = [] ∧
    (SplunkLogger.Stop (SplunkLogger.Stop i).after).returned = (SplunkLogger.Stop i).returned := by
  obtain ⟨l, muHeld, wg⟩ := i
  cases muHeld <;> cases hr : l.running <;> by_cases hw : wg = 0 <;>
    simp [SplunkLogger.Stop, effects, hr, hw]

theorem OPCUAServer_Stop_twice (b1 b2 : Bool) (i : Instance OPCUAServer) :
    (i.fields.running = false →
      (OPCUAServer.Stop b1 i).after = i ∧ effects (OPCUAServer.Stop b1 i).events = [] ∧
      (OPCUAServer.Stop b1 i).returned = !i.muHeld) ∧
    (OPCUAServer.Stop b2 (OPCUAServer.Stop b1 i).after).after = (OPCUAServer.Stop b1 i).after ∧
    effects (OPCUAServer.Stop b2 (OPCUAServer.Stop b1 i).after).events = [] ∧
    (OPCUAServer.Stop b2 (OPCUAServer.Stop b1 i).after).returned
      = (OPCUAServer.Stop b1 i).returned := by
  obtain ⟨s, muHeld, wg⟩ := i
  cases muHeld <;> cases hr : s.running <;> by_cases hw : wg = 0 <;> cases b1 <;>
    simp [OPCUAServer.Stop, effects, hr, hw]

/-- C8. For each of `UDPReceiver`, `SplunkLogger` and `OPCUAServer`, in every
state of its fields, mutex and wait group: `Stop` on a non-running instance
leaves the instance as it was and closes nothing, waits for nothing and logs
nothing (it returns exactly when the mutex is free); and whatever the first
`Stop` did, a second `Stop` on what it left behind leaves that unchanged,
closes nothing, waits for nothing and logs nothing, so two calls leave the
state one call leaves. The second call returns exactly when the first did: on
an instance whose background goroutine is registered the first call stays
blocked in `wg.Wait()` holding the mutex, and the second then blocks in
`Lock`. -/
theorem Stop_idempotent :
    (∀ i : Instance UDPReceiver,
      (i.fields.running = false →
        (UDPReceiver.Stop i).after = i ∧ effects (UDPReceiver.Stop i).events = [] ∧
        (UDPReceiver.Stop i).returned = !i.muHeld) ∧
      (UDPReceiver.Stop (UDPReceiver.Stop i).after).after = (UDPReceiver.Stop i).after ∧
      effects (UDPReceiver.Stop (UDPReceiver.Stop i).after).events = [] ∧
      (UDPReceiver.Stop (UDPReceiver.Stop i).after).returned
        = (UDPReceiver.Stop i).returned) ∧
    (∀ i : Instance SplunkLogger,
      (i.fields.running = false →
        (SplunkLogger.Stop i).after = i ∧ effects (SplunkLogger.Stop i).events = [] ∧
        (SplunkLogger.Stop i).returned = !i.muHeld) ∧
      (SplunkLogger.Stop (SplunkLogger.Stop i).after).after = (SplunkLogger.Stop i).after ∧
      effects (SplunkLogger.Stop (SplunkLogger.Stop i).after).events = [] ∧
      (SplunkLogger.Stop (SplunkLogger.Stop i).after).returned
        = (SplunkLogger.Stop i).returned) ∧
    (∀ (b1 b2 : Bool) (i : Instance OPCUAServer),
      (i.fields.running = false →
        (OPCUAServer.Stop b1 i).after = i ∧ effects (OPCUAServer.Stop b1 i).events = [] ∧
        (OPCUAServer.Stop b1 i).returned = !i.muHeld) ∧
      (OPCUAServer.Stop b2 (OPCUAServer.Stop b1 i).after).after
        = (OPCUAServer.Stop b1 i).after ∧
      effects (OPCUAServer.Stop b2 (OPCUAServer.Stop b1 i).after).events = [] ∧
      (OPCUAServer.Stop b2 (OPCUAServer.Stop b1 i).after).returned
        = (OPCUAServer.Stop b1 i).returned) :=
  ⟨UDPReceiver_Stop_twice, SplunkLogger_Stop_twice, OPCUAServer_Stop_twice⟩

/-- A forwarder that was never started: `Stop` returns and changes nothing. A
started forwarder: the first `Stop` closes the connection and stays blocked in
`wg.Wait()`, and a second `Stop` on what it left changes nothing and has no
effect. -/
theorem Stop_idempotent_witness :
    ((SplunkLogger.Stop newLogger).after = newLogger ∧
      effects (SplunkLogger.Stop newLogger).events = [] ∧
      (SplunkLogger.Stop newLogger).returned = true) ∧
    (effects (SplunkLogger.Stop startedLogger).events = [Ev.connClose, Ev.wgWait] ∧
      (SplunkLogger.Stop startedLogger).returned = false) ∧
    ((SplunkLogger.Stop (SplunkLogger.Stop startedLogger).after).after
        = (SplunkLogger.Stop startedLogger).after ∧
      effects (SplunkLogger.Stop (SplunkLogger.Stop startedLogger).after).events = [] ∧
      (SplunkLogger.Stop (SplunkLogger.Stop startedLogger).after).returned = false) :=
  ⟨(Stop_idempotent.2.1 newLogger).1 rfl, ⟨rfl, rfl⟩,
    (Stop_idempotent.2.1 startedLogger).2⟩

/-- The two outcomes of `Stop` on a started OPC UA server: when the monitor
goroutine exits on the cancelled context, `Stop` logs, unlocks and returns;
when the monitor takes a tick instead, `Stop` stays blocked in `wg.Wait()`. -/
theorem OPCUAServer_Stop_outcomes :
    (OPCUAServer.Stop true startedServer).returned = true ∧
    effects (OPCUAServer.Stop true startedServer).events
      = [Ev.cancel, Ev.serverClose, Ev.wgWait, Ev.log .opcuaServerStopped] ∧
    (OPCUAServer.Stop false startedServer).returned = false ∧
    effects (OPCUAServer.Stop false startedServer).events
      = [Ev.cancel, Ev.serverClose, Ev.wgWait] ∧
    (OPCUAServer.Stop false startedServer).after.muHeld = true :=
  ⟨rfl, rfl, rfl, rfl, rfl⟩

/-! ## Lock discipline -/

theorem heldAfter_append (held : List Mutex) (t1 t2 : List Ev) :
    heldAfter held (t1 ++ t2) = heldAfter held t1 ++ heldAfter (heldFinal held t1) t2 := by
  induction t1 generalizing held with
  | nil => rfl
  | cons e t ih => simp [heldAfter, heldFinal, ih]

theorem heldFinal_append (held : List Mutex) (t1 t2 : List Ev) :
    heldFinal held (t1 ++ t2) = heldFinal (heldFinal held t1) t2 := by
  induction t1 generalizing held with
  | nil => rfl
  | cons e t ih => simp [heldFinal, ih]

theorem held_handleOPCUAData (env : Env) (app : Application) (data : GoMap) :
    (∀ h ∈ heldAfter [.configMutex] (app.handleOPCUAData env data).2, h ∈ dispatchHeldSets) ∧
    heldFinal [.configMutex] (app.handleOPCUAData env data).2 = [.configMutex] := by
  unfold Application.handleOPCUAData
  cases app.opcuaServer <;>
    simp [heldAfter, heldFinal, heldStep, dispatchHeldSets, OPCUAServer.HandleVariableUpdate]

theorem held_handleLog (env : Env) (app : Application) (data : GoMap) :
    (∀ h ∈ heldAfter [.configMutex] (app.handleLog env data).2.2, h ∈ dispatchHeldSets) ∧
    heldFinal [.configMutex] (app.handleLog env data).2.2 = [.configMutex] := by
  unfold Application.handleLog
  cases app.splunkLogger with
  | none => simp [heldAfter, heldFinal, heldStep, dispatchHeldSets]
  | some l =>
    simp only [SplunkLogger.SendLog]
    split_ifs <;> simp [heldAfter, heldFinal, heldStep, dispatchHeldSets]

theorem held_dispatch (env : Env) (app : Application) (data : GoMap) (dataType : String) :
    (∀ h ∈ heldAfter [.configMutex] (app.dispatch env data dataType).2.2,
      h ∈ dispatchHeldSets) ∧
    heldFinal [.configMutex] (app.dispatch env data dataType).2.2 = [.configMutex] := by
  obtain ⟨hO1, hO2⟩ := held_handleOPCUAData env app data
  obtain ⟨hL1, hL2⟩ := held_handleLog env app data
  have hcons : ∀ (h : Handler) (t : List Ev),
      ((∀ x ∈ heldAfter [.configMutex] t, x ∈ dispatchHeldSets) ∧
        heldFinal [.configMutex] t = [.configMutex]) →
      ((∀ x ∈ heldAfter [.configMutex] (Ev.handler h :: t), x ∈ dispatchHeldSets) ∧
        heldFinal [.configMutex] (Ev.handler h :: t) = [.configMutex]) := by
    intro h t ht
    refine ⟨?_, by simpa [heldFinal, heldStep] using ht.2⟩
    intro x hx
    simp only [heldAfter, heldStep, List.mem_cons] at hx
    rcases hx with hx | hx
    · subst hx; simp [dispatchHeldSets]
    · exact ht.1 x hx
  have hlog : ∀ l : LogLine,
      ((∀ x ∈ heldAfter [.configMutex] [Ev.log l], x ∈ dispatchHeldSets) ∧
        heldFinal [.configMutex] [Ev.log l] = [.configMutex]) := by
    intro l; simp [heldAfter, heldFinal, heldStep, dispatchHeldSets]
  unfold Application.dispatch
  by_cases h1 : dataType = "opcua"
  · simp only [if_pos h1]; exact hcons _ _ ⟨hO1, hO2⟩
  simp only [if_neg h1]
  by_cases h2 : dataType = "opcua_auth_config"
  · simp only [if_pos h2, Application.handleAuthConfig]; exact hcons _ _ (hlog _)
  simp only [if_neg h2]
  by_cases h3 : dataType = "opcua_users"
  · simp only [if_pos h3, Application.handleUsers]; exact hcons _ _ (hlog _)
  simp only [if_neg h3]
  by_cases h4 : dataType = "log"
  · simp only [if_pos h4]; exact hcons _ _ ⟨hL1, hL2⟩
  simp only [if_neg h4]
  by_cases h5 : dataType = "secondary_log_config"
  · simp only [if_pos h5, Application.handleLogConfig]; exact hcons _ _ (hlog _)
  simp only [if_neg h5]
  by_cases h6 : dataType = "receive_interface_config"
  · simp only [if_pos h6, Application.handleInterfaceConfig]; exact hcons _ _ (hlog _)
  simp only [if_neg h6]
  exact hlog _

/-- C10 as stated fails: while handling scenario 1 the task holds the
dispatcher lock and `OPCUAServer.mu` together, the second acquired while the
first is held. -/
theorem handleUDPData_holds_two_locks :
    heldAfter [] ((exampleApp 0).handleUDPData exampleEnv scenario1).2.2
      = [[.configMutex], [.configMutex], [.configMutex], [.opcuaMu, .configMutex],
         [.opcuaMu, .configMutex], [.configMutex], []] ∧
    ¬ (∀ h ∈ heldAfter [] ((exampleApp 0).handleUDPData exampleEnv scenario1).2.2,
        h.length ≤ 1) := by
  have e : heldAfter [] ((exampleApp 0).handleUDPData exampleEnv scenario1).2.2
      = [[.configMutex], [.configMutex], [.configMutex], [.opcuaMu, .configMutex],
         [.opcuaMu, .configMutex], [.configMutex], []] := by rfl
  refine ⟨e, ?_⟩
  rw [e]
  decide

/-- C10 (amended). While `Application.handleUDPData` and the handler it
invokes run, for every event and every application state, the set of locks the
task holds is one of: none; the dispatcher lock; the dispatcher lock with
`OPCUAServer.mu` acquired inside it; the dispatcher lock with
`SplunkLogger.mu` acquired inside it. So at most two locks are held at once, a
component lock is only held together with the dispatcher lock, never two
component locks, and every lock is released when the call returns. -/
theorem handleUDPData_lock_discipline (env : Env) (app : Application) (data : GoMap) :
    (∀ h ∈ heldAfter [] (app.handleUDPData env data).2.2,
      h ∈ dispatchHeldSets ∧ h.length ≤ 2) ∧
    heldFinal [] (app.handleUDPData env data).2.2 = [] := by
  have hlen : ∀ h ∈ dispatchHeldSets, h.length ≤ 2 := by decide
  suffices hmain : (∀ h ∈ heldAfter [] (app.handleUDPData env data).2.2,
      h ∈ dispatchHeldSets) ∧ heldFinal [] (app.handleUDPData env data).2.2 = [] from
    ⟨fun h hh => ⟨hmain.1 h hh, hlen h (hmain.1 h hh)⟩, hmain.2⟩
  unfold Application.handleUDPData
  cases hty : (data.index "type").asString with
  | none => simp [heldAfter, heldFinal, heldStep, dispatchHeldSets]
  | some dataType =>
    obtain ⟨hd1, hd2⟩ := held_dispatch env app data dataType
    have ea : heldAfter [] ([Ev.lock .configMutex] ++ (app.dispatch env data dataType).2.2
          ++ [Ev.unlock .configMutex])
        = [.configMutex] :: (heldAfter [.configMutex] (app.dispatch env data dataType).2.2
            ++ [[]]) := by
      rw [List.append_assoc, List.singleton_append]
      show _ :: heldAfter [.configMutex] _ = _
      rw [heldAfter_append, hd2]
      rfl
    have ef : heldFinal [] ([Ev.lock .configMutex] ++ (app.dispatch env data dataType).2.2
          ++ [Ev.unlock .configMutex]) = [] := by
      rw [List.append_assoc, List.singleton_append]
      show heldFinal [.configMutex] _ = _
      rw [heldFinal_append, hd2]
      rfl
    refine ⟨?_, ef⟩
    intro h hh
    rw [ea] at hh
    simp only [List.mem_cons, List.mem_append, List.mem_singleton] at hh
    rcases hh with hh | hh | hh
    · subst hh; simp [dispatchHeldSets]
    · exact hd1 h hh
    · rcases hh with hh | hh
      · subst hh; simp [dispatchHeldSets]
      · exact absurd hh (List.not_mem_nil _)

/-! ## Shutdown of the UDP receiver -/

theorem stopInv_step (t : Thread) (σ : Sys) (h : stopInv σ = true) :
    stopInv ((step t σ).getD σ) = true := by
  obtain ⟨running, connClosed, mu, wg, stop, loop⟩ := σ
  have hwg : wg = 1 := by
    simp only [stopInv, Bool.and_eq_true, beq_iff_eq] at h
    exact h.1
  subst hwg
  cases t <;> cases stop <;> cases loop <;> cases running <;> cases connClosed <;>
    rcases mu with _ | (_ | _) <;> revert h <;> decide

theorem stopInv_run (sched : List Thread) (σ : Sys) (h : stopInv σ = true) :
    stopInv (run σ sched) = true := by
  induction sched generalizing σ with
  | nil => exact h
  | cons t ts ih => exact ih _ (stopInv_step t σ h)

/-- In every interleaving from `stopCalled`, `Stop` never gets past
`wg.Wait()`: it never writes its log line and never runs its deferred `Unlock`,
and once it has the mutex nobody else gets it. -/
theorem receiver_Stop_stays_before_log (sched : List Thread) :
    (run stopCalled sched).stop ≠ .logStopped ∧
    (run stopCalled sched).stop ≠ .unlock ∧
    ((run stopCalled sched).stop = .lock ∨ (run stopCalled sched).mu = some .stop) := by
  have h := stopInv_run sched stopCalled (by decide)
  generalize run stopCalled sched = σ at h
  obtain ⟨running, connClosed, mu, wg, stop, loop⟩ := σ
  cases stop <;> rcases mu with _ | (_ | _) <;> simp [stopInv] at h ⊢

/-- The call-level description of `UDPReceiver.Stop` on a started receiver
agrees with the interleaving model: the call does not return, and it leaves
the flag cleared, the socket closed, the mutex held and the wait group counter
at 1, which is the state in which the interleaving is stuck. -/
theorem UDPReceiver_Stop_agrees_with_interleaving :
    (UDPReceiver.Stop startedReceiver).returned = false ∧
    (UDPReceiver.Stop startedReceiver).events
      = [Ev.lock .receiverMu, Ev.connClose, Ev.wgWait] ∧
    (UDPReceiver.Stop startedReceiver).after.muHeld = true ∧
    (run stopCalled [.stop, .stop, .stop, .stop]).mu = some .stop ∧
    (run stopCalled [.stop, .stop, .stop, .stop]).stop = .wait ∧
    (UDPReceiver.Stop startedReceiver).after.wg
      = (run stopCalled [.stop, .stop, .stop, .stop]).wg ∧
    (UDPReceiver.Stop startedReceiver).after.fields.running
      = (run stopCalled [.stop, .stop, .stop, .stop]).running ∧
    (UDPReceiver.Stop startedReceiver).after.fields.conn
      = some { closed := (run stopCalled [.stop, .stop, .stop, .stop]).connClosed } := by
  refine ⟨rfl, rfl, rfl, by decide, by decide, by decide, by decide, by decide⟩

/-- On a receiver that is not running and has no loop goroutine, `Stop` takes
the mutex, sees the flag cleared and returns: the interleaving model lets `Stop`
return where the code does. -/
theorem receiver_Stop_returns_when_not_running :
    (run { running := false, connClosed := true, mu := none, wg := 0, stop := .lock,
           loop := .exited } [.stop, .stop, .stop]).stop = .returned := by
  decide

/-- C9, the behaviour of the code. In every interleaving of `Stop` with the
receive loop of a running receiver, `Stop` never returns, and the loop never
observes the cleared flag and never exits; and after the four statements of
`Stop` up to `Wait`, `Stop` is blocked on `Wait` holding the mutex while the
loop is blocked on `Lock`: neither goroutine can take a step. -/
theorem receiver_Stop_never_returns :
    (∀ sched : List Thread,
      (run stopCalled sched).stop ≠ .returned ∧
      (run stopCalled sched).loop ≠ .unlockBreak ∧
      (run stopCalled sched).loop ≠ .exited) ∧
    run stopCalled [.stop, .stop, .stop, .stop]
      = { running := false, connClosed := true, mu := some .stop, wg := 1,
          stop := .wait, loop := .lock } ∧
    step .stop (run stopCalled [.stop, .stop, .stop, .stop]) = none ∧
    step .loop (run stopCalled [.stop, .stop, .stop, .stop]) = none := by
  refine ⟨fun sched => ?_, by decide, by decide, by decide⟩
  have h := stopInv_run sched stopCalled (by decide)
  generalize run stopCalled sched = σ at h
  obtain ⟨running, connClosed, mu, wg, stop, loop⟩ := σ
  refine ⟨?_, ?_, ?_⟩
  · rintro rfl
    simp [stopInv] at h
  · rintro rfl
    simp [stopInv] at h
  · rintro rfl
    simp [stopInv] at h

end GoDataDiode
